import Mathlib

/-!
Verification of the node-lifecycle orchestrator and persistent key store of
`src/src/mesh/mesh.c` (BTstack Bluetooth Mesh node core).

The C code is shallowly embedded: machine integers become `Nat` (with explicit
bounds where overflow matters), byte buffers become `List Nat`, the TLV
persistent tag store becomes a function from 32-bit tags to optionally stored
byte lists, and the event handlers become pure functions from a state and an
incoming packet to a new state together with a trace of the external calls
they perform.
-/

namespace Mesh

/-! ## Byte-buffer primitives

A byte buffer is a `List Nat`; each entry is meant to be `< 256`.
`dByte b i` reads the byte at offset `i` (C array indexing into a buffer that
is large enough); `sliceBytes b off len` reads `len` bytes starting at `off`
(a `memcpy` out of the buffer). -/

def dByte (b : List Nat) (i : Nat) : Nat := b.getD i 0

def sliceBytes (b : List Nat) (off len : Nat) : List Nat := (b.drop off).take len

/-- Little-endian encoding of a `uint16_t` struct field (2 bytes). -/
def u16le (v : Nat) : List Nat := [v % 256, v / 256 % 256]

/-- Little-endian decoding of a `uint16_t` struct field at offset `i`. -/
def dU16le (b : List Nat) (i : Nat) : Nat := dByte b i + 256 * dByte b (i + 1)

/-! ## In-memory key entities (`mesh_network_key_t`, `mesh_transport_key_t`)

Only the fields `mesh.c` touches are modelled. -/

structure mesh_network_key_t where
  internal_index : Nat
  netkey_index : Nat
  version : Nat
  net_key : List Nat
  identity_key : List Nat
  beacon_key : List Nat
  network_id : List Nat
  nid : Nat
  encryption_key : List Nat
  privacy_key : List Nat
deriving Repr, DecidableEq

structure mesh_transport_key_t where
  internal_index : Nat
  appkey_index : Nat
  netkey_index : Nat
  aid : Nat
  akf : Nat
  version : Nat
  key : List Nat
deriving Repr, DecidableEq

/-! ## Persistent record structures
(`mesh_persistent_net_key_t`, `mesh_persistent_app_key_t`) -/

structure mesh_persistent_net_key_t where
  netkey_index : Nat
  version : Nat
  net_key : List Nat
  identity_key : List Nat
  beacon_key : List Nat
  network_id : List Nat
  nid : Nat
  encryption_key : List Nat
  privacy_key : List Nat
deriving Repr, DecidableEq

structure mesh_persistent_app_key_t where
  netkey_index : Nat
  appkey_index : Nat
  aid : Nat
  version : Nat
  key : List Nat
deriving Repr, DecidableEq

/-- Record size `sizeof(mesh_persistent_net_key_t)`: 2 + 1 + 16 + 16 + 16 + 8 + 1 + 16 + 16. -/
def net_key_record_size : Nat := 92

/-- Record size `sizeof(mesh_persistent_app_key_t)`: 2 + 2 + 1 + 1 + 16. -/
def app_key_record_size : Nat := 22

/-- Byte layout of `mesh_persistent_net_key_t` in declaration order
(no padding: the single `uint16_t` sits at offset 0). -/
def serialize_net_key_record (r : mesh_persistent_net_key_t) : List Nat :=
  u16le r.netkey_index ++ [r.version] ++ r.net_key ++ r.identity_key ++
    r.beacon_key ++ r.network_id ++ [r.nid] ++ r.encryption_key ++ r.privacy_key

/-- Reading the fields of `mesh_persistent_net_key_t` out of a 92-byte buffer. -/
def deserialize_net_key_record (b : List Nat) : mesh_persistent_net_key_t where
  netkey_index := dU16le b 0
  version := dByte b 2
  net_key := sliceBytes b 3 16
  identity_key := sliceBytes b 19 16
  beacon_key := sliceBytes b 35 16
  network_id := sliceBytes b 51 8
  nid := dByte b 59
  encryption_key := sliceBytes b 60 16
  privacy_key := sliceBytes b 76 16

/-- Byte layout of `mesh_persistent_app_key_t` in declaration order. -/
def serialize_app_key_record (r : mesh_persistent_app_key_t) : List Nat :=
  u16le r.netkey_index ++ u16le r.appkey_index ++ [r.aid] ++ [r.version] ++ r.key

/-- Reading the fields of `mesh_persistent_app_key_t` out of a 22-byte buffer. -/
def deserialize_app_key_record (b : List Nat) : mesh_persistent_app_key_t where
  netkey_index := dU16le b 0
  appkey_index := dU16le b 2
  aid := dByte b 4
  version := dByte b 5
  key := sliceBytes b 6 16

/-- The field copies of `mesh_store_network_key` from the in-memory key into
the persistent record. -/
def net_key_record_of_key (k : mesh_network_key_t) : mesh_persistent_net_key_t where
  netkey_index := k.netkey_index
  version := k.version
  net_key := k.net_key
  identity_key := k.identity_key
  beacon_key := k.beacon_key
  network_id := k.network_id
  nid := k.nid
  encryption_key := k.encryption_key
  privacy_key := k.privacy_key

/-- The field copies of `mesh_store_app_key` from the in-memory key into the
persistent record. -/
def app_key_record_of_key (k : mesh_transport_key_t) : mesh_persistent_app_key_t where
  netkey_index := k.netkey_index
  appkey_index := k.appkey_index
  aid := k.aid
  version := k.version
  key := k.key

/-- Key-record codec, encode direction: the bytes `mesh_store_network_key`
hands to `store_tag`. -/
def encode_network_key (k : mesh_network_key_t) : List Nat :=
  serialize_net_key_record (net_key_record_of_key k)

/-- Key-record codec, decode direction: `mesh_load_network_keys` accepts a
record only when its length is exactly `sizeof(mesh_persistent_net_key_t)`. -/
def decode_network_key (b : List Nat) : Option mesh_persistent_net_key_t :=
  if b.length = net_key_record_size then some (deserialize_net_key_record b) else none

/-- Key-record codec, encode direction for application keys. -/
def encode_app_key (k : mesh_transport_key_t) : List Nat :=
  serialize_app_key_record (app_key_record_of_key k)

/-- Key-record codec, decode direction for application keys (exact expected
size, per the spec codec contract). -/
def decode_app_key (b : List Nat) : Option mesh_persistent_app_key_t :=
  if b.length = app_key_record_size then some (deserialize_app_key_record b) else none

/-- A network key whose fields fit their C types and array widths. -/
def ValidNetworkKey (k : mesh_network_key_t) : Prop :=
  k.netkey_index < 65536 ∧ k.version < 256 ∧ k.nid < 256 ∧
  k.net_key.length = 16 ∧ k.identity_key.length = 16 ∧ k.beacon_key.length = 16 ∧
  k.network_id.length = 8 ∧ k.encryption_key.length = 16 ∧ k.privacy_key.length = 16

instance (k : mesh_network_key_t) : Decidable (ValidNetworkKey k) := by
  unfold ValidNetworkKey; infer_instance

/-- An application key whose fields fit their C types and array widths. -/
def ValidAppKey (k : mesh_transport_key_t) : Prop :=
  k.netkey_index < 65536 ∧ k.appkey_index < 65536 ∧ k.aid < 256 ∧
  k.version < 256 ∧ k.key.length = 16

instance (k : mesh_transport_key_t) : Decidable (ValidAppKey k) := by
  unfold ValidAppKey; infer_instance

/-! ## Tag addressing (`mesh_network_key_tag_for_internal_index`,
`mesh_transport_key_tag_for_internal_index`) -/

/-- Tag `('M' << 24) | ('N' << 16) | internal_index` — `'M' = 77`, `'N' = 78`.
For `internal_index < 2^16` the bitwise or is plain addition. -/
def mesh_network_key_tag_for_internal_index (internal_index : Nat) : Nat :=
  (77 * 2 ^ 24) ||| (78 * 2 ^ 16) ||| internal_index

/-- Tag `('M' << 24) | ('A' << 16) | internal_index` — `'M' = 77`, `'A' = 65`. -/
def mesh_transport_key_tag_for_internal_index (internal_index : Nat) : Nat :=
  (77 * 2 ^ 24) ||| (65 * 2 ^ 16) ||| internal_index

/-! ## The persistent tag store (`btstack_tlv`)

A store maps a 32-bit tag to an optionally present byte record.
`get_tag` returns the stored length (0 when absent) and copies
`min (stored length) (buffer size)` bytes into the buffer of the caller; the rest
of the buffer keeps its previous (uninitialized) contents, modelled by an
explicit `junk` buffer. -/

def Tlv : Type := Nat → Option (List Nat)

def tlv_store_tag (tlv : Tlv) (tag : Nat) (bytes : List Nat) : Tlv :=
  fun t => if t = tag then some bytes else tlv t

def tlv_delete_tag (tlv : Tlv) (tag : Nat) : Tlv :=
  fun t => if t = tag then none else tlv t

/-- Length returned by `get_tag` (0 when no record is stored). -/
def tlv_get_len (tlv : Tlv) (tag : Nat) : Nat :=
  match tlv tag with
  | none => 0
  | some bytes => bytes.length

/-- The buffer of the caller of size `bufsize` after `get_tag`: the prefix that was
copied from the stored record, followed by the untouched tail of the
uninitialized stack buffer `junk`. -/
def tlv_read_buf (tlv : Tlv) (tag : Nat) (junk : List Nat) (bufsize : Nat) : List Nat :=
  match tlv tag with
  | none => junk
  | some bytes => bytes.take bufsize ++ junk.drop (min bytes.length bufsize)

/-- Trace of tag-store operations a repository operation performs. -/
inductive TlvOp where
  | get (tag : Nat)
  | put (tag : Nat) (bytes : List Nat)
  | del (tag : Nat)
deriving Repr, DecidableEq

def TlvOp.isGet : TlvOp → Bool
  | .get _ => true
  | _ => false

/-! ## Key repository: store / delete / load_all -/

/-- Model of `mesh_store_network_key`: encode the record of the key and write
it at the tag of the key. -/
def mesh_store_network_key (tlv : Tlv) (k : mesh_network_key_t) : Tlv :=
  tlv_store_tag tlv (mesh_network_key_tag_for_internal_index k.internal_index)
    (encode_network_key k)

/-- Model of `mesh_delete_network_key`. -/
def mesh_delete_network_key (tlv : Tlv) (internal_index : Nat) : Tlv :=
  tlv_delete_tag tlv (mesh_network_key_tag_for_internal_index internal_index)

/-- Model of `mesh_store_app_key`. -/
def mesh_store_app_key (tlv : Tlv) (k : mesh_transport_key_t) : Tlv :=
  tlv_store_tag tlv (mesh_transport_key_tag_for_internal_index k.internal_index)
    (encode_app_key k)

/-- Model of `mesh_delete_app_key`. -/
def mesh_delete_app_key (tlv : Tlv) (internal_index : Nat) : Tlv :=
  tlv_delete_tag tlv (mesh_transport_key_tag_for_internal_index internal_index)

/-- The field assignments `mesh_load_network_keys` performs on a freshly
allocated `mesh_network_key_t` from the decoded record. Note that
`internal_index` is NOT among them: the C loader never assigns it, so the
fresh struct keeps whatever value the pool allocator handed over. -/
def apply_net_key_record (fresh : mesh_network_key_t)
    (data : mesh_persistent_net_key_t) : mesh_network_key_t :=
  { fresh with
    netkey_index := data.netkey_index
    net_key := data.net_key
    identity_key := data.identity_key
    beacon_key := data.beacon_key
    network_id := data.network_id
    nid := data.nid
    version := data.version
    encryption_key := data.encryption_key
    privacy_key := data.privacy_key }

/-- Model of `mesh_load_network_keys`, one slot at a time over the remaining internal
indices. `pool` is the bounded allocator (`btstack_memory_mesh_network_key_get`):
each element is the uninitialized content of one still-free slot, `[]` means
exhausted, in which case the loader returns at once. `junk i` is the
uninitialized stack buffer `data` of iteration `i`. Returns the keys added to
the repository (in order) and the trace of tag-store operations. -/
def load_network_keys_aux (tlv : Tlv) (junk : Nat → List Nat) :
    List Nat → List mesh_network_key_t → List mesh_network_key_t × List TlvOp
  | [], _ => ([], [])
  | i :: rest, pool =>
    let tag := mesh_network_key_tag_for_internal_index i
    let len := tlv_get_len tlv tag
    if len ≠ net_key_record_size then
      let r := load_network_keys_aux tlv junk rest pool
      (r.1, TlvOp.get tag :: r.2)
    else
      match pool with
      | [] => ([], [TlvOp.get tag])
      | fresh :: rest_pool =>
        let data := deserialize_net_key_record
          (tlv_read_buf tlv tag (junk i) net_key_record_size)
        let r := load_network_keys_aux tlv junk rest rest_pool
        (apply_net_key_record fresh data :: r.1, TlvOp.get tag :: r.2)

def mesh_load_network_keys (max_nr : Nat) (tlv : Tlv) (junk : Nat → List Nat)
    (pool : List mesh_network_key_t) : List mesh_network_key_t × List TlvOp :=
  load_network_keys_aux tlv junk (List.range max_nr) pool

/-- The field assignments `mesh_load_app_keys` performs on a freshly allocated
`mesh_transport_key_t`: here `internal_index` IS set to the slot index, and
`akf` is forced to 1. -/
def apply_app_key_record (fresh : mesh_transport_key_t) (internal_index : Nat)
    (data : mesh_persistent_app_key_t) : mesh_transport_key_t :=
  { fresh with
    internal_index := internal_index
    appkey_index := data.appkey_index
    netkey_index := data.netkey_index
    aid := data.aid
    akf := 1
    version := data.version
    key := data.key }

/-- Model of `mesh_load_app_keys`: the skip condition is `app_key_len == 0` — any
record of non-zero length, whatever its size, is decoded and added. -/
def load_app_keys_aux (tlv : Tlv) (junk : Nat → List Nat) :
    List Nat → List mesh_transport_key_t → List mesh_transport_key_t × List TlvOp
  | [], _ => ([], [])
  | i :: rest, pool =>
    let tag := mesh_transport_key_tag_for_internal_index i
    let len := tlv_get_len tlv tag
    if len = 0 then
      let r := load_app_keys_aux tlv junk rest pool
      (r.1, TlvOp.get tag :: r.2)
    else
      match pool with
      | [] => ([], [TlvOp.get tag])
      | fresh :: rest_pool =>
        let data := deserialize_app_key_record
          (tlv_read_buf tlv tag (junk i) app_key_record_size)
        let r := load_app_keys_aux tlv junk rest rest_pool
        (apply_app_key_record fresh i data :: r.1, TlvOp.get tag :: r.2)

def mesh_load_app_keys (max_nr : Nat) (tlv : Tlv) (junk : Nat → List Nat)
    (pool : List mesh_transport_key_t) : List mesh_transport_key_t × List TlvOp :=
  load_app_keys_aux tlv junk (List.range max_nr) pool

/-! ## Event discriminants

Values from the BTstack headers consumed by `mesh.c` (the headers are not part
of the sources under verification; the dispatch only relies on the
discriminants being fixed, distinct byte values). -/

def HCI_EVENT_PACKET : Nat := 0x04
def BTSTACK_EVENT_STATE : Nat := 0x60
def HCI_EVENT_DISCONNECTION_COMPLETE : Nat := 0x05
def HCI_EVENT_LE_META : Nat := 0x3e
def HCI_SUBEVENT_LE_CONNECTION_COMPLETE : Nat := 0x01
def HCI_STATE_WORKING : Nat := 2
def HCI_EVENT_MESH_META : Nat := 0xf5
def MESH_SUBEVENT_PB_PROV_COMPLETE : Nat := 0x18

/-! ## Node lifecycle state and event handlers -/

/-- External call made by a handler, with its arguments where a claim needs
them. -/
inductive Action where
  | provisioning_device_data_get
  | mesh_node_store_provisioning_data
  | mesh_access_setup_from_provisioning_data
  | mesh_proxy_set_advertising_with_node_id
  | forward (packet_type channel : Nat) (packet : List Nat) (size : Nat)
  | btstack_tlv_get_instance
  | mesh_node_startup_from_tlv
  | mesh_proxy_start_advertising_unprovisioned_device
  | mesh_proxy_start_advertising_with_network_id
  | mesh_proxy_stop_advertising_unprovisioned_device
  | btstack_crypto_random_generate
  | mesh_node_set_device_uuid (uuid : List Nat)
  | beacon_unprovisioned_device_start
deriving Repr, DecidableEq

def Action.isForward : Action → Bool
  | .forward _ _ _ _ => true
  | _ => false

/-- The mutable globals of `mesh.c` together with the persistent node record.
`prov_data_stored` models whether the provisioning record written by
`mesh_node_store_provisioning_data` is present in the persistent store.
Modelled from the spec: `mesh_node_store_provisioning_data` and
`mesh_node_startup_from_tlv` are external to the sources under verification;
per the spec, the former durably persists the provisioning data and the
latter reports whether a prior provisioning record is recoverable. -/
structure MeshState where
  provisioned : Bool
  prov_data_stored : Bool
  prov_handler_registered : Bool
  device_uuid : Option (List Nat)
  random_device_uuid : List Nat
deriving Repr, DecidableEq

/-- Model of `mesh_provisioning_message_handler`: it acts on
`HCI_EVENT_MESH_META` / `MESH_SUBEVENT_PB_PROV_COMPLETE`, then forwards the
incoming event verbatim to the registered subscriber (if any). -/
def mesh_provisioning_message_handler (st : MeshState) (packet_type channel : Nat)
    (packet : List Nat) (size : Nat) : MeshState × List Action :=
  let inner : MeshState × List Action :=
    if dByte packet 0 = HCI_EVENT_MESH_META then
      if dByte packet 2 = MESH_SUBEVENT_PB_PROV_COMPLETE then
        ({ st with prov_data_stored := true, provisioned := true },
         [Action.provisioning_device_data_get,
          Action.mesh_node_store_provisioning_data,
          Action.mesh_access_setup_from_provisioning_data,
          Action.mesh_proxy_set_advertising_with_node_id])
      else (st, [])
    else (st, [])
  if st.prov_handler_registered then
    (inner.1, inner.2 ++ [Action.forward packet_type channel packet size])
  else inner

/-- Model of `hci_packet_handler`. Here `proxy_server` is `ENABLE_MESH_PROXY_SERVER`. -/
def hci_packet_handler (proxy_server : Bool) (st : MeshState) (packet_type : Nat)
    (packet : List Nat) : MeshState × List Action :=
  if packet_type = HCI_EVENT_PACKET then
    if dByte packet 0 = BTSTACK_EVENT_STATE then
      if dByte packet 2 = HCI_STATE_WORKING then
        ({ st with provisioned := st.prov_data_stored },
         [Action.btstack_tlv_get_instance, Action.mesh_node_startup_from_tlv])
      else (st, [])
    else if dByte packet 0 = HCI_EVENT_DISCONNECTION_COMPLETE then
      if st.provisioned = false then
        (st, [Action.mesh_proxy_start_advertising_unprovisioned_device])
      else if proxy_server then
        (st, [Action.mesh_proxy_start_advertising_with_network_id])
      else (st, [])
    else if dByte packet 0 = HCI_EVENT_LE_META then
      if dByte packet 2 = HCI_SUBEVENT_LE_CONNECTION_COMPLETE then
        (st, [Action.mesh_proxy_stop_advertising_unprovisioned_device])
      else (st, [])
    else (st, [])
  else (st, [])

/-- Model of `mesh_access_setup_unprovisioned_device` — the continuation of the random
UUID generation and the direct path. `arg = none` models the `NULL` argument
(random path); only then is the node device UUID overwritten with the random
buffer. `pb_adv` / `pb_gatt` are `ENABLE_MESH_PB_ADV` / `ENABLE_MESH_PB_GATT`. -/
def mesh_access_setup_unprovisioned_device (pb_adv pb_gatt : Bool) (st : MeshState)
    (arg : Option (List Nat)) : MeshState × List Action :=
  let inner : MeshState × List Action :=
    match arg with
    | none =>
      ({ st with device_uuid := some st.random_device_uuid },
       [Action.mesh_node_set_device_uuid st.random_device_uuid])
    | some _ => (st, [])
  (inner.1,
   inner.2 ++ (if pb_adv then [Action.beacon_unprovisioned_device_start] else []) ++
     (if pb_gatt then [Action.mesh_proxy_start_advertising_unprovisioned_device] else []))

/-- Model of `mesh_access_setup_without_provisiong_data`: use the existing device UUID
when there is one, otherwise start asynchronous random generation (the
continuation will later run with `arg = none`). -/
def mesh_access_setup_without_provisiong_data (pb_adv pb_gatt : Bool)
    (st : MeshState) : MeshState × List Action :=
  match st.device_uuid with
  | some uuid => mesh_access_setup_unprovisioned_device pb_adv pb_gatt st (some uuid)
  | none => (st, [Action.btstack_crypto_random_generate])

/-- Completion of `btstack_crypto_random_generate`: the crypto collaborator
has filled `random_device_uuid` with `rnd` and invokes the registered
continuation with argument `NULL`. -/
def mesh_access_crypto_random_complete (pb_adv pb_gatt : Bool) (st : MeshState)
    (rnd : List Nat) : MeshState × List Action :=
  mesh_access_setup_unprovisioned_device pb_adv pb_gatt
    { st with random_device_uuid := rnd } none

/-- The events this core processes at runtime (the handlers of `mesh.c`). -/
inductive MeshEvent where
  | hci (packet_type : Nat) (packet : List Nat)
  | prov (packet_type channel : Nat) (packet : List Nat) (size : Nat)
  | randomComplete (rnd : List Nat)

/-- One step of the event-driven core: state after processing one event. -/
def mesh_step (proxy_server pb_adv pb_gatt : Bool) (st : MeshState) :
    MeshEvent → MeshState
  | .hci packet_type packet => (hci_packet_handler proxy_server st packet_type packet).1
  | .prov packet_type channel packet size =>
    (mesh_provisioning_message_handler st packet_type channel packet size).1
  | .randomComplete rnd => (mesh_access_crypto_random_complete pb_adv pb_gatt st rnd).1

/-! ## Bring-up sequencer (`mesh_init`, `mesh_node_setup_default_models`) -/

inductive InitStep where
  | register_hci_event_handler
  | adv_bearer_init
  | gatt_bearer_init
  | beacon_init
  | provisioning_device_init
  | mesh_node_init
  | mesh_network_init
  | mesh_lower_transport_init
  | mesh_upper_transport_init
  | mesh_access_init
  | add_configuration_server_model
  | add_health_server_model
deriving Repr, DecidableEq

def mesh_node_setup_default_models_trace : List InitStep :=
  [InitStep.add_configuration_server_model, InitStep.add_health_server_model]

/-- The calls `mesh_init` performs, in program order. `gatt_bearer` is
`ENABLE_MESH_GATT_BEARER`, `adv_bearer` is `ENABLE_MESH_ADV_BEARER`. -/
def mesh_init_trace (gatt_bearer adv_bearer : Bool) : List InitStep :=
  [InitStep.register_hci_event_handler, InitStep.adv_bearer_init] ++
  (if gatt_bearer then [InitStep.gatt_bearer_init] else []) ++
  (if adv_bearer then [InitStep.beacon_init] else []) ++
  [InitStep.provisioning_device_init, InitStep.mesh_node_init,
   InitStep.mesh_network_init, InitStep.mesh_lower_transport_init,
   InitStep.mesh_upper_transport_init, InitStep.mesh_access_init] ++
  mesh_node_setup_default_models_trace

/-- The initialization order as the spec words it (§4.6): connectivity
handler first, then bearer transports (optional ones under their flags), then
the provisioning collaborator, node identity, network layer, lower transport
strictly before upper transport, access layer, and finally the
configuration-server and health-server model registrations. -/
def mesh_init_spec_order (gatt_bearer adv_bearer : Bool) : List InitStep :=
  [InitStep.register_hci_event_handler] ++
  ([InitStep.adv_bearer_init] ++
    (if gatt_bearer then [InitStep.gatt_bearer_init] else []) ++
    (if adv_bearer then [InitStep.beacon_init] else [])) ++
  [InitStep.provisioning_device_init] ++
  [InitStep.mesh_node_init] ++
  [InitStep.mesh_network_init] ++
  [InitStep.mesh_lower_transport_init, InitStep.mesh_upper_transport_init] ++
  [InitStep.mesh_access_init] ++
  [InitStep.add_configuration_server_model, InitStep.add_health_server_model]

/-! ## Spec-side characterizations of the loaders -/

/-- The key `mesh_load_network_keys` builds for slot `i` out of the fresh pool
struct `fresh` and the record read back at the tag of slot `i`. -/
def loaded_net_key (tlv : Tlv) (junk : Nat → List Nat) (fresh : mesh_network_key_t)
    (i : Nat) : mesh_network_key_t :=
  apply_net_key_record fresh (deserialize_net_key_record
    (tlv_read_buf tlv (mesh_network_key_tag_for_internal_index i) (junk i)
      net_key_record_size))

/-- The key `mesh_load_app_keys` builds for slot `i`. -/
def loaded_app_key (tlv : Tlv) (junk : Nat → List Nat) (fresh : mesh_transport_key_t)
    (i : Nat) : mesh_transport_key_t :=
  apply_app_key_record fresh i (deserialize_app_key_record
    (tlv_read_buf tlv (mesh_transport_key_tag_for_internal_index i) (junk i)
      app_key_record_size))

/-- A network-key slot the loader accepts: stored length is exactly the record
size. -/
def valid_net_slot (tlv : Tlv) (i : Nat) : Bool :=
  tlv_get_len tlv (mesh_network_key_tag_for_internal_index i) == net_key_record_size

/-- An application-key slot the loader accepts: stored length is non-zero. -/
def nonempty_app_slot (tlv : Tlv) (i : Nat) : Bool :=
  tlv_get_len tlv (mesh_transport_key_tag_for_internal_index i) != 0

/-- The slots a bounded scan reads: every slot in order up to and including
the one at which an accepted record meets an exhausted pool budget `p`. -/
def scan_reads (accepted : Nat → Bool) : List Nat → Nat → List Nat
  | [], _ => []
  | i :: rest, p =>
    if accepted i then
      match p with
      | 0 => [i]
      | q + 1 => i :: scan_reads accepted rest q
    else i :: scan_reads accepted rest p

/-! ## Concrete inputs used to evaluate the loaders -/

def tlv_empty : Tlv := fun _ => none

/-- One concrete content of the uninitialized 92-byte stack buffer. -/
def junk_net : Nat → List Nat := fun _ => List.replicate net_key_record_size 170

/-- One concrete content of the uninitialized 22-byte stack buffer. -/
def junk_app : Nat → List Nat := fun _ => List.replicate app_key_record_size 170

/-- The scenario network key of the spec: `netkey_index = 0x0012`,
`net_key = 0x00..0x0F`, stored at internal index 1. -/
def scenario_net_key : mesh_network_key_t where
  internal_index := 1
  netkey_index := 18
  version := 0
  net_key := [0, 1, 2, 3, 4, 5, 6, 7, 8, 9, 10, 11, 12, 13, 14, 15]
  identity_key := List.replicate 16 1
  beacon_key := List.replicate 16 2
  network_id := List.replicate 8 3
  nid := 4
  encryption_key := List.replicate 16 5
  privacy_key := List.replicate 16 6

/-- A well-formed application key stored at internal index 1. -/
def scenario_app_key : mesh_transport_key_t where
  internal_index := 1
  appkey_index := 52
  netkey_index := 18
  aid := 5
  akf := 1
  version := 0
  key := List.replicate 16 7

/-- Content of a freshly allocated `mesh_network_key_t` pool slot (the pool
allocator does not initialize the struct; zeroed memory is one concrete
possibility). -/
def fresh_net_slot : mesh_network_key_t where
  internal_index := 0
  netkey_index := 0
  version := 0
  net_key := []
  identity_key := []
  beacon_key := []
  network_id := []
  nid := 0
  encryption_key := []
  privacy_key := []

/-- Content of a freshly allocated `mesh_transport_key_t` pool slot. -/
def fresh_app_slot : mesh_transport_key_t where
  internal_index := 0
  appkey_index := 0
  netkey_index := 0
  aid := 0
  akf := 0
  version := 0
  key := []

/-- A store holding, for each key kind, a truncated record at internal index 0
and a well-formed record at internal index 1. -/
def tlv_corrupt : Tlv := fun t =>
  if t = mesh_transport_key_tag_for_internal_index 0 then some [90]
  else if t = mesh_transport_key_tag_for_internal_index 1 then
    some (encode_app_key scenario_app_key)
  else if t = mesh_network_key_tag_for_internal_index 0 then some [1, 2, 3]
  else if t = mesh_network_key_tag_for_internal_index 1 then
    some (encode_network_key scenario_net_key)
  else none

/-! ## Byte-buffer lemmas -/

theorem sliceBytes_cons_succ (x : Nat) (l : List Nat) (n len : Nat) :
    sliceBytes (x :: l) (n + 1) len = sliceBytes l n len := rfl

theorem sliceBytes_peel (xs ys : List Nat) (off len : Nat) (h : xs.length ≤ off) :
    sliceBytes (xs ++ ys) off len = sliceBytes ys (off - xs.length) len := by
  simp only [sliceBytes, List.drop_append_eq_append_drop,
    List.drop_eq_nil_of_le h, List.nil_append]

theorem sliceBytes_here (xs ys : List Nat) (len : Nat) (h : xs.length = len) :
    sliceBytes (xs ++ ys) 0 len = xs := by
  simp [sliceBytes, List.take_left' h]

theorem sliceBytes_all (xs : List Nat) (len : Nat) (h : xs.length = len) :
    sliceBytes xs 0 len = xs := by
  simp [sliceBytes, ← h]

theorem dByte_peel (xs ys : List Nat) (off : Nat) (h : xs.length ≤ off) :
    dByte (xs ++ ys) off = dByte ys (off - xs.length) := by
  simp [dByte, List.getD_eq_getElem?_getD, List.getElem?_append_right h]

/-! ## Key-record codec lemmas -/

theorem net_record_roundtrip (n v : Nat) (nk ik bk ndid : List Nat) (ni : Nat)
    (ek pk : List Nat) (hn : n < 65536) (h1 : nk.length = 16)
    (h2 : ik.length = 16) (h3 : bk.length = 16) (h4 : ndid.length = 8)
    (h5 : ek.length = 16) (h6 : pk.length = 16) :
    deserialize_net_key_record
      (serialize_net_key_record ⟨n, v, nk, ik, bk, ndid, ni, ek, pk⟩) =
      ⟨n, v, nk, ik, bk, ndid, ni, ek, pk⟩ := by
  unfold serialize_net_key_record deserialize_net_key_record u16le
  simp only [List.append_assoc, List.cons_append, List.nil_append,
    mesh_persistent_net_key_t.mk.injEq]
  refine ⟨?_, ?_, ?_, ?_, ?_, ?_, ?_, ?_, ?_⟩
  · simp [dU16le, dByte]; omega
  · simp [dByte]
  · simp only [sliceBytes_cons_succ]
    rw [sliceBytes_here _ _ _ h1]
  · simp only [sliceBytes_cons_succ]
    rw [sliceBytes_peel nk _ 16 16 (by omega), h1]
    norm_num
    rw [sliceBytes_here _ _ _ h2]
  · simp only [sliceBytes_cons_succ]
    rw [sliceBytes_peel nk _ 32 16 (by omega), h1]
    norm_num
    rw [sliceBytes_peel ik _ 16 16 (by omega), h2]
    norm_num
    rw [sliceBytes_here _ _ _ h3]
  · simp only [sliceBytes_cons_succ]
    rw [sliceBytes_peel nk _ 48 8 (by omega), h1]
    norm_num
    rw [sliceBytes_peel ik _ 32 8 (by omega), h2]
    norm_num
    rw [sliceBytes_peel bk _ 16 8 (by omega), h3]
    norm_num
    rw [sliceBytes_here _ _ _ h4]
  · rw [show (59 : Nat) = 56 + 3 from rfl]
    simp only [dByte, List.getD_cons_succ]
    show dByte _ 56 = ni
    rw [dByte_peel nk _ 56 (by omega), h1]
    norm_num
    rw [dByte_peel ik _ 40 (by omega), h2]
    norm_num
    rw [dByte_peel bk _ 24 (by omega), h3]
    norm_num
    rw [dByte_peel ndid _ 8 (by omega), h4]
    norm_num
    simp [dByte]
  · simp only [sliceBytes_cons_succ]
    rw [sliceBytes_peel nk _ 57 16 (by omega), h1]
    norm_num
    rw [sliceBytes_peel ik _ 41 16 (by omega), h2]
    norm_num
    rw [sliceBytes_peel bk _ 25 16 (by omega), h3]
    norm_num
    rw [sliceBytes_peel ndid _ 9 16 (by omega), h4]
    norm_num
    simp only [sliceBytes_cons_succ]
    rw [sliceBytes_here _ _ _ h5]
  · simp only [sliceBytes_cons_succ]
    rw [sliceBytes_peel nk _ 73 16 (by omega), h1]
    norm_num
    rw [sliceBytes_peel ik _ 57 16 (by omega), h2]
    norm_num
    rw [sliceBytes_peel bk _ 41 16 (by omega), h3]
    norm_num
    rw [sliceBytes_peel ndid _ 25 16 (by omega), h4]
    norm_num
    simp only [sliceBytes_cons_succ]
    rw [sliceBytes_peel ek _ 16 16 (by omega), h5]
    norm_num
    rw [sliceBytes_all _ _ h6]

theorem app_record_roundtrip (n a ai v : Nat) (key : List Nat) (hn : n < 65536)
    (ha : a < 65536) (hk : key.length = 16) :
    deserialize_app_key_record
      (serialize_app_key_record ⟨n, a, ai, v, key⟩) = ⟨n, a, ai, v, key⟩ := by
  unfold serialize_app_key_record deserialize_app_key_record u16le
  simp only [List.append_assoc, List.cons_append, List.nil_append,
    mesh_persistent_app_key_t.mk.injEq]
  refine ⟨?_, ?_, ?_, ?_, ?_⟩
  · simp [dU16le, dByte]; omega
  · simp [dU16le, dByte]; omega
  · simp [dByte]
  · simp [dByte]
  · simp only [sliceBytes_cons_succ]
    rw [sliceBytes_all _ _ hk]

theorem serialize_net_key_record_length (r : mesh_persistent_net_key_t)
    (h1 : r.net_key.length = 16) (h2 : r.identity_key.length = 16)
    (h3 : r.beacon_key.length = 16) (h4 : r.network_id.length = 8)
    (h5 : r.encryption_key.length = 16) (h6 : r.privacy_key.length = 16) :
    (serialize_net_key_record r).length = net_key_record_size := by
  simp [serialize_net_key_record, u16le, net_key_record_size, h1, h2, h3, h4, h5, h6]

theorem serialize_app_key_record_length (r : mesh_persistent_app_key_t)
    (hk : r.key.length = 16) :
    (serialize_app_key_record r).length = app_key_record_size := by
  simp [serialize_app_key_record, u16le, app_key_record_size, hk]

/-- C3. For every valid NetworkKey and every valid ApplicationKey, encoding
the key into its fixed-layout persistent record and decoding that record back
yields a key equal field-for-field to the original: every record field of the
decode result — `netkey_index`, `version`, the raw key and every derived
field (`identity_key`, `beacon_key`, `network_id`, `nid`, `encryption_key`,
`privacy_key` for network keys; `aid` for application keys) — is taken
verbatim from the record and equals the field of the original key. -/
theorem claim_C3_codec_round_trip (k : mesh_network_key_t)
    (a : mesh_transport_key_t) (hk : ValidNetworkKey k) (ha : ValidAppKey a) :
    decode_network_key (encode_network_key k) =
      some ⟨k.netkey_index, k.version, k.net_key, k.identity_key, k.beacon_key,
            k.network_id, k.nid, k.encryption_key, k.privacy_key⟩ ∧
    decode_app_key (encode_app_key a) =
      some ⟨a.netkey_index, a.appkey_index, a.aid, a.version, a.key⟩ := by
  obtain ⟨hk1, hk2, hk3, hk4, hk5, hk6, hk7, hk8, hk9⟩ := hk
  obtain ⟨ha1, ha2, ha3, ha4, ha5⟩ := ha
  constructor
  · have hrec : net_key_record_of_key k =
        ⟨k.netkey_index, k.version, k.net_key, k.identity_key, k.beacon_key,
         k.network_id, k.nid, k.encryption_key, k.privacy_key⟩ := rfl
    rw [decode_network_key, encode_network_key, hrec,
      serialize_net_key_record_length _ hk4 hk5 hk6 hk7 hk8 hk9, if_pos rfl]
    exact congrArg some
      (net_record_roundtrip _ _ _ _ _ _ _ _ _ hk1 hk4 hk5 hk6 hk7 hk8 hk9)
  · have hrec : app_key_record_of_key a =
        ⟨a.netkey_index, a.appkey_index, a.aid, a.version, a.key⟩ := rfl
    rw [decode_app_key, encode_app_key, hrec,
      serialize_app_key_record_length _ ha5, if_pos rfl]
    exact congrArg some (app_record_roundtrip _ _ _ _ _ ha1 ha2 ha5)

/-- Witness for C3 at the concrete scenario keys. -/
theorem claim_C3_codec_round_trip_witness :
    ValidNetworkKey scenario_net_key ∧ ValidAppKey scenario_app_key ∧
    (decode_network_key (encode_network_key scenario_net_key) =
      some ⟨scenario_net_key.netkey_index, scenario_net_key.version,
            scenario_net_key.net_key, scenario_net_key.identity_key,
            scenario_net_key.beacon_key, scenario_net_key.network_id,
            scenario_net_key.nid, scenario_net_key.encryption_key,
            scenario_net_key.privacy_key⟩ ∧
     decode_app_key (encode_app_key scenario_app_key) =
      some ⟨scenario_app_key.netkey_index, scenario_app_key.appkey_index,
            scenario_app_key.aid, scenario_app_key.version,
            scenario_app_key.key⟩) :=
  ⟨by decide, by decide,
   claim_C3_codec_round_trip scenario_net_key scenario_app_key
     (by decide) (by decide)⟩

/-! ## Tag addressing lemmas -/

theorem net_tag_eq_add (i : Nat) (h : i < 65536) :
    mesh_network_key_tag_for_internal_index i = 1296957440 + i := by
  unfold mesh_network_key_tag_for_internal_index
  have h1 : ((77 * 2 ^ 24 : Nat) ||| (78 * 2 ^ 16)) = 1296957440 := by decide
  rw [h1]
  have h2 : (2 : Nat) ^ 16 * 19790 + i = 2 ^ 16 * 19790 ||| i :=
    Nat.mul_add_lt_is_or h 19790
  norm_num at h2
  exact h2.symm

theorem app_tag_eq_add (i : Nat) (h : i < 65536) :
    mesh_transport_key_tag_for_internal_index i = 1296105472 + i := by
  unfold mesh_transport_key_tag_for_internal_index
  have h1 : ((77 * 2 ^ 24 : Nat) ||| (65 * 2 ^ 16)) = 1296105472 := by decide
  rw [h1]
  have h2 : (2 : Nat) ^ 16 * 19777 + i = 2 ^ 16 * 19777 ||| i :=
    Nat.mul_add_lt_is_or h 19777
  norm_num at h2
  exact h2.symm

/-- C6. The tag-addressing functions are collision-free: for all pairs of
(key kind, internal index) with the internal index in range of its `uint16_t`
type (which subsumes every configured maximum), the network-key and
transport-key tag functions are each injective, and their tag spaces are
disjoint. -/
theorem claim_C6_tag_disjointness (i j : Nat) (hi : i < 65536) (hj : j < 65536) :
    (mesh_network_key_tag_for_internal_index i =
       mesh_network_key_tag_for_internal_index j → i = j) ∧
    (mesh_transport_key_tag_for_internal_index i =
       mesh_transport_key_tag_for_internal_index j → i = j) ∧
    mesh_network_key_tag_for_internal_index i ≠
      mesh_transport_key_tag_for_internal_index j := by
  rw [net_tag_eq_add i hi, net_tag_eq_add j hj, app_tag_eq_add i hi,
    app_tag_eq_add j hj]
  omega

/-- Witness for C6 at slots 3 and 3. -/
theorem claim_C6_tag_disjointness_witness :
    (3 : Nat) < 65536 ∧
    ((mesh_network_key_tag_for_internal_index 3 =
        mesh_network_key_tag_for_internal_index 3 → (3 : Nat) = 3) ∧
     (mesh_transport_key_tag_for_internal_index 3 =
        mesh_transport_key_tag_for_internal_index 3 → (3 : Nat) = 3) ∧
     mesh_network_key_tag_for_internal_index 3 ≠
       mesh_transport_key_tag_for_internal_index 3) :=
  ⟨by decide, claim_C6_tag_disjointness 3 3 (by decide) (by decide)⟩

/-- C9. The bring-up sequencer performs its initialization steps in exactly
the order the spec fixes, for every combination of the optional capability
flags: connectivity handler registration first, then the bearer transports
(optional ones only under their flags), the provisioning collaborator, node
identity, the network layer, the lower transport strictly before the upper
transport, the access layer, and finally the configuration-server and
health-server model registrations on the primary element. -/
theorem claim_C9_init_order (gatt_bearer adv_bearer : Bool) :
    mesh_init_trace gatt_bearer adv_bearer =
      mesh_init_spec_order gatt_bearer adv_bearer := by
  cases gatt_bearer <;> cases adv_bearer <;> rfl

/-! ## Connectivity and provisioning handler claims -/

/-- C5. For every link-disconnected event delivered to the connectivity
handler (with proxy-server support compiled in): if the provisioned flag is
false, unprovisioned-device advertising is started; if it is true, network-id
advertising is started instead — and nothing else is done. -/
theorem claim_C5_disconnect_advertising (proxy_server : Bool) (st : MeshState)
    (packet : List Nat) (hps : proxy_server = true)
    (hpkt : dByte packet 0 = HCI_EVENT_DISCONNECTION_COMPLETE) :
    (hci_packet_handler proxy_server st HCI_EVENT_PACKET packet).2 =
      (if st.provisioned then [Action.mesh_proxy_start_advertising_with_network_id]
       else [Action.mesh_proxy_start_advertising_unprovisioned_device]) := by
  subst hps
  cases hp : st.provisioned <;>
    simp [hci_packet_handler, hpkt, hp, HCI_EVENT_PACKET, BTSTACK_EVENT_STATE,
      HCI_EVENT_DISCONNECTION_COMPLETE]

/-- Witness for C5: a disconnection-complete packet on a provisioned state
and on an unprovisioned state. -/
theorem claim_C5_disconnect_advertising_witness :
    (true = true) ∧ dByte [5, 0, 0] 0 = HCI_EVENT_DISCONNECTION_COMPLETE ∧
    (hci_packet_handler true ⟨true, true, false, none, []⟩ HCI_EVENT_PACKET
        [5, 0, 0]).2 =
      (if (⟨true, true, false, none, []⟩ : MeshState).provisioned then
        [Action.mesh_proxy_start_advertising_with_network_id]
       else [Action.mesh_proxy_start_advertising_unprovisioned_device]) :=
  ⟨rfl, by decide,
   claim_C5_disconnect_advertising true ⟨true, true, false, none, []⟩ [5, 0, 0]
     rfl (by decide)⟩

/-- C8. For every provisioning event received by the bridge while an external
subscriber is registered, the action trace of the handler contains exactly one
forward, carrying the packet type, channel, packet bytes and size the bridge
itself received, and that forward is the last action (after any local
processing) — no event, including provisioning-complete, is suppressed or
altered. -/
theorem claim_C8_bridge_forwards (st : MeshState) (packet_type channel : Nat)
    (packet : List Nat) (size : Nat) (h : st.prov_handler_registered = true) :
    ((mesh_provisioning_message_handler st packet_type channel packet size).2).filter
        Action.isForward = [Action.forward packet_type channel packet size] ∧
    ((mesh_provisioning_message_handler st packet_type channel packet size).2).getLast?
      = some (Action.forward packet_type channel packet size) := by
  by_cases h0 : dByte packet 0 = HCI_EVENT_MESH_META <;>
    by_cases h2 : dByte packet 2 = MESH_SUBEVENT_PB_PROV_COMPLETE <;>
    simp [mesh_provisioning_message_handler, h, h0, h2, Action.isForward]

/-- Witness for C8 at a provisioning-complete packet. -/
theorem claim_C8_bridge_forwards_witness :
    ((⟨false, false, true, none, []⟩ : MeshState).prov_handler_registered = true) ∧
    ((mesh_provisioning_message_handler ⟨false, false, true, none, []⟩ 9 7
        [245, 0, 24] 3).2).filter Action.isForward =
      [Action.forward 9 7 [245, 0, 24] 3] ∧
    ((mesh_provisioning_message_handler ⟨false, false, true, none, []⟩ 9 7
        [245, 0, 24] 3).2).getLast? = some (Action.forward 9 7 [245, 0, 24] 3) :=
  ⟨rfl, claim_C8_bridge_forwards ⟨false, false, true, none, []⟩ 9 7 [245, 0, 24] 3 rfl⟩

/-- C10. When unprovisioned-device setup runs while a device UUID is already
set, the state (in particular the UUID) is left unchanged and neither random
generation nor a device-UUID overwrite is among the emitted calls; the
asynchronous random path is taken exactly when no device UUID exists; and the
continuation overwrites the device UUID only when invoked with a NULL
argument. -/
theorem claim_C10_uuid_frame (pb_adv pb_gatt : Bool) (st : MeshState)
    (uuid : List Nat) (h : st.device_uuid = some uuid) :
    (mesh_access_setup_without_provisiong_data pb_adv pb_gatt st).1 = st ∧
    (∀ act ∈ (mesh_access_setup_without_provisiong_data pb_adv pb_gatt st).2,
      act ≠ Action.btstack_crypto_random_generate ∧
      ∀ u, act ≠ Action.mesh_node_set_device_uuid u) ∧
    (∀ st2 : MeshState, st2.device_uuid = none →
      (mesh_access_setup_without_provisiong_data pb_adv pb_gatt st2).2 =
        [Action.btstack_crypto_random_generate] ∧
      (mesh_access_setup_without_provisiong_data pb_adv pb_gatt st2).1 = st2) ∧
    (∀ (st3 : MeshState) (u : List Nat),
      (mesh_access_setup_unprovisioned_device pb_adv pb_gatt st3 (some u)).1 = st3) ∧
    (∀ st4 : MeshState,
      (mesh_access_setup_unprovisioned_device pb_adv pb_gatt st4 none).1.device_uuid
        = some st4.random_device_uuid) := by
  refine ⟨?_, ?_, ?_, ?_, ?_⟩
  · simp [mesh_access_setup_without_provisiong_data, h,
      mesh_access_setup_unprovisioned_device]
  · intro act hact
    have hmem : act ∈ [Action.beacon_unprovisioned_device_start,
        Action.mesh_proxy_start_advertising_unprovisioned_device] := by
      cases pb_adv <;> cases pb_gatt <;>
        simp_all [mesh_access_setup_without_provisiong_data,
          mesh_access_setup_unprovisioned_device]
    fin_cases hmem <;> exact ⟨by simp, fun u => by simp⟩
  · intro st2 h2
    simp [mesh_access_setup_without_provisiong_data, h2]
  · intro st3 u
    simp [mesh_access_setup_unprovisioned_device]
  · intro st4
    simp [mesh_access_setup_unprovisioned_device]

/-- Witness for C10 on a state whose UUID is already set. -/
theorem claim_C10_uuid_frame_witness :
    ((⟨false, false, false, some [9, 9], []⟩ : MeshState).device_uuid = some [9, 9]) ∧
    ((mesh_access_setup_without_provisiong_data true true
        ⟨false, false, false, some [9, 9], []⟩).1 =
      ⟨false, false, false, some [9, 9], []⟩ ∧
     (∀ act ∈ (mesh_access_setup_without_provisiong_data true true
        ⟨false, false, false, some [9, 9], []⟩).2,
        act ≠ Action.btstack_crypto_random_generate ∧
        ∀ u, act ≠ Action.mesh_node_set_device_uuid u) ∧
     (∀ st2 : MeshState, st2.device_uuid = none →
        (mesh_access_setup_without_provisiong_data true true st2).2 =
          [Action.btstack_crypto_random_generate] ∧
        (mesh_access_setup_without_provisiong_data true true st2).1 = st2) ∧
     (∀ (st3 : MeshState) (u : List Nat),
        (mesh_access_setup_unprovisioned_device true true st3 (some u)).1 = st3) ∧
     (∀ st4 : MeshState,
        (mesh_access_setup_unprovisioned_device true true st4 none).1.device_uuid
          = some st4.random_device_uuid)) :=
  ⟨rfl, claim_C10_uuid_frame true true ⟨false, false, false, some [9, 9], []⟩
    [9, 9] rfl⟩

/-! ## The one-way provisioned latch -/

theorem mesh_step_preserves_latch (proxy_server pb_adv pb_gatt : Bool)
    (st : MeshState) (e : MeshEvent)
    (h1 : st.provisioned = true) (h2 : st.prov_data_stored = true) :
    (mesh_step proxy_server pb_adv pb_gatt st e).provisioned = true ∧
    (mesh_step proxy_server pb_adv pb_gatt st e).prov_data_stored = true := by
  cases e with
  | hci packet_type packet =>
    simp only [mesh_step, hci_packet_handler]
    split_ifs <;> simp [h1, h2]
  | prov packet_type channel packet size =>
    simp only [mesh_step, mesh_provisioning_message_handler]
    split_ifs <;> simp [h1, h2]
  | randomComplete rnd =>
    simp [mesh_step, mesh_access_crypto_random_complete,
      mesh_access_setup_unprovisioned_device, h1, h2]

theorem mesh_latch_foldl (proxy_server pb_adv pb_gatt : Bool) :
    ∀ (events : List MeshEvent) (st : MeshState),
      st.provisioned = true → st.prov_data_stored = true →
      ((events.foldl (mesh_step proxy_server pb_adv pb_gatt) st).provisioned = true ∧
       (events.foldl (mesh_step proxy_server pb_adv pb_gatt) st).prov_data_stored = true)
  | [], st, h1, h2 => ⟨h1, h2⟩
  | e :: es, st, h1, h2 => by
    have hs := mesh_step_preserves_latch proxy_server pb_adv pb_gatt st e h1 h2
    simpa using mesh_latch_foldl proxy_server pb_adv pb_gatt es _ hs.1 hs.2

/-- C4. Once the provisioning-complete handler has processed a
provisioning-complete packet and set the provisioned flag, no subsequent
sequence of events processed by this core (its handlers offer no reset
operation) brings the flag back to false — in particular a later
stack-operational reload from persisted node state still yields
`provisioned = true`, because the handler stored the provisioning record
before latching the flag. -/
theorem claim_C4_provisioned_latch (proxy_server pb_adv pb_gatt : Bool)
    (st : MeshState) (packet_type channel size : Nat) (packet : List Nat)
    (hp0 : dByte packet 0 = HCI_EVENT_MESH_META)
    (hp2 : dByte packet 2 = MESH_SUBEVENT_PB_PROV_COMPLETE)
    (events : List MeshEvent) :
    (events.foldl (mesh_step proxy_server pb_adv pb_gatt)
        (mesh_step proxy_server pb_adv pb_gatt st
          (MeshEvent.prov packet_type channel packet size))).provisioned = true ∧
    (∀ reload_packet : List Nat,
      dByte reload_packet 0 = BTSTACK_EVENT_STATE →
      dByte reload_packet 2 = HCI_STATE_WORKING →
      (mesh_step proxy_server pb_adv pb_gatt
        (events.foldl (mesh_step proxy_server pb_adv pb_gatt)
          (mesh_step proxy_server pb_adv pb_gatt st
            (MeshEvent.prov packet_type channel packet size)))
        (MeshEvent.hci HCI_EVENT_PACKET reload_packet)).provisioned = true) := by
  have hstep : (mesh_step proxy_server pb_adv pb_gatt st
      (MeshEvent.prov packet_type channel packet size)).provisioned = true ∧
      (mesh_step proxy_server pb_adv pb_gatt st
        (MeshEvent.prov packet_type channel packet size)).prov_data_stored = true := by
    cases hreg : st.prov_handler_registered <;>
      simp [mesh_step, mesh_provisioning_message_handler, hp0, hp2, hreg]
  have hfold := mesh_latch_foldl proxy_server pb_adv pb_gatt events _ hstep.1 hstep.2
  refine ⟨hfold.1, fun reload_packet hr0 hr2 => ?_⟩
  exact (mesh_step_preserves_latch proxy_server pb_adv pb_gatt _
    (MeshEvent.hci HCI_EVENT_PACKET reload_packet) hfold.1 hfold.2).1

/-- Witness for C4: a provisioning-complete packet followed by a reload and a
disconnect event. -/
theorem claim_C4_provisioned_latch_witness :
    dByte [245, 0, 24] 0 = HCI_EVENT_MESH_META ∧
    dByte [245, 0, 24] 2 = MESH_SUBEVENT_PB_PROV_COMPLETE ∧
    (([MeshEvent.hci HCI_EVENT_PACKET [96, 0, 2],
       MeshEvent.hci HCI_EVENT_PACKET [5, 0, 0]].foldl (mesh_step true true true)
        (mesh_step true true true ⟨false, false, true, none, []⟩
          (MeshEvent.prov 9 7 [245, 0, 24] 3))).provisioned = true ∧
     (∀ reload_packet : List Nat,
       dByte reload_packet 0 = BTSTACK_EVENT_STATE →
       dByte reload_packet 2 = HCI_STATE_WORKING →
       (mesh_step true true true
         ([MeshEvent.hci HCI_EVENT_PACKET [96, 0, 2],
           MeshEvent.hci HCI_EVENT_PACKET [5, 0, 0]].foldl (mesh_step true true true)
           (mesh_step true true true ⟨false, false, true, none, []⟩
             (MeshEvent.prov 9 7 [245, 0, 24] 3)))
         (MeshEvent.hci HCI_EVENT_PACKET reload_packet)).provisioned = true)) :=
  ⟨by decide, by decide,
   claim_C4_provisioned_latch true true true ⟨false, false, true, none, []⟩ 9 7 3
     [245, 0, 24] (by decide) (by decide)
     [MeshEvent.hci HCI_EVENT_PACKET [96, 0, 2],
      MeshEvent.hci HCI_EVENT_PACKET [5, 0, 0]]⟩

/-! ## Loader characterization lemmas -/

theorem load_network_keys_aux_keys (tlv : Tlv) (junk : Nat → List Nat) :
    ∀ (idxs : List Nat) (pool : List mesh_network_key_t),
      (load_network_keys_aux tlv junk idxs pool).1 =
        List.zipWith (loaded_net_key tlv junk) pool (idxs.filter (valid_net_slot tlv))
  | [], pool => by simp [load_network_keys_aux]
  | i :: rest, pool => by
    by_cases hv : tlv_get_len tlv (mesh_network_key_tag_for_internal_index i) =
      net_key_record_size
    · cases pool with
      | nil =>
        simp [load_network_keys_aux, hv, valid_net_slot]
      | cons fresh rest_pool =>
        simp [load_network_keys_aux, hv, valid_net_slot, loaded_net_key,
          load_network_keys_aux_keys tlv junk rest rest_pool]
    · simp [load_network_keys_aux, hv, valid_net_slot,
        load_network_keys_aux_keys tlv junk rest pool]

theorem load_network_keys_aux_ops (tlv : Tlv) (junk : Nat → List Nat) :
    ∀ (idxs : List Nat) (pool : List mesh_network_key_t),
      (load_network_keys_aux tlv junk idxs pool).2 =
        (scan_reads (valid_net_slot tlv) idxs pool.length).map
          (fun i => TlvOp.get (mesh_network_key_tag_for_internal_index i))
  | [], pool => by simp [load_network_keys_aux, scan_reads]
  | i :: rest, pool => by
    by_cases hv : tlv_get_len tlv (mesh_network_key_tag_for_internal_index i) =
      net_key_record_size
    · cases pool with
      | nil =>
        simp [load_network_keys_aux, hv, valid_net_slot, scan_reads]
      | cons fresh rest_pool =>
        simp [load_network_keys_aux, hv, valid_net_slot, scan_reads,
          load_network_keys_aux_ops tlv junk rest rest_pool]
    · simp [load_network_keys_aux, hv, valid_net_slot, scan_reads,
        load_network_keys_aux_ops tlv junk rest pool]

theorem load_app_keys_aux_keys (tlv : Tlv) (junk : Nat → List Nat) :
    ∀ (idxs : List Nat) (pool : List mesh_transport_key_t),
      (load_app_keys_aux tlv junk idxs pool).1 =
        List.zipWith (fun fresh i => loaded_app_key tlv junk fresh i) pool
          (idxs.filter (nonempty_app_slot tlv))
  | [], pool => by simp [load_app_keys_aux]
  | i :: rest, pool => by
    by_cases hv : tlv_get_len tlv (mesh_transport_key_tag_for_internal_index i) = 0
    · simp [load_app_keys_aux, hv, nonempty_app_slot,
        load_app_keys_aux_keys tlv junk rest pool]
    · cases pool with
      | nil =>
        simp [load_app_keys_aux, hv, nonempty_app_slot]
      | cons fresh rest_pool =>
        simp [load_app_keys_aux, hv, nonempty_app_slot, loaded_app_key,
          load_app_keys_aux_keys tlv junk rest rest_pool]

theorem load_app_keys_aux_ops (tlv : Tlv) (junk : Nat → List Nat) :
    ∀ (idxs : List Nat) (pool : List mesh_transport_key_t),
      (load_app_keys_aux tlv junk idxs pool).2 =
        (scan_reads (nonempty_app_slot tlv) idxs pool.length).map
          (fun i => TlvOp.get (mesh_transport_key_tag_for_internal_index i))
  | [], pool => by simp [load_app_keys_aux, scan_reads]
  | i :: rest, pool => by
    by_cases hv : tlv_get_len tlv (mesh_transport_key_tag_for_internal_index i) = 0
    · simp [load_app_keys_aux, hv, nonempty_app_slot, scan_reads,
        load_app_keys_aux_ops tlv junk rest pool]
    · cases pool with
      | nil =>
        simp [load_app_keys_aux, hv, nonempty_app_slot, scan_reads]
      | cons fresh rest_pool =>
        simp [load_app_keys_aux, hv, nonempty_app_slot, scan_reads,
          load_app_keys_aux_ops tlv junk rest rest_pool]

/-- C7. If the in-memory key pool is exhausted while load-all is scanning
persisted slots, loading stops at the slot where the allocator came up empty:
the keys loaded are exactly the accepted records paired in order with the
available pool slots (so every key loaded before the exhaustion stays, the
pool is fully used, and nothing further is added), the tag store sees only
reads (never a write or delete, leaving every persisted record untouched),
and the slots read are exactly those up to and including the exhaustion slot. -/
theorem claim_C7_pool_exhaustion (max_nr : Nat) (tlv : Tlv)
    (junk_n junk_a : Nat → List Nat) (net_pool : List mesh_network_key_t)
    (app_pool : List mesh_transport_key_t)
    (hnet : net_pool.length <
      ((List.range max_nr).filter (valid_net_slot tlv)).length)
    (happ : app_pool.length <
      ((List.range max_nr).filter (nonempty_app_slot tlv)).length) :
    (mesh_load_network_keys max_nr tlv junk_n net_pool).1 =
      List.zipWith (loaded_net_key tlv junk_n) net_pool
        ((List.range max_nr).filter (valid_net_slot tlv)) ∧
    (mesh_load_app_keys max_nr tlv junk_a app_pool).1 =
      List.zipWith (fun fresh i => loaded_app_key tlv junk_a fresh i) app_pool
        ((List.range max_nr).filter (nonempty_app_slot tlv)) ∧
    (mesh_load_network_keys max_nr tlv junk_n net_pool).1.length =
      net_pool.length ∧
    (mesh_load_app_keys max_nr tlv junk_a app_pool).1.length =
      app_pool.length ∧
    (∀ op ∈ (mesh_load_network_keys max_nr tlv junk_n net_pool).2,
      op.isGet = true) ∧
    (∀ op ∈ (mesh_load_app_keys max_nr tlv junk_a app_pool).2,
      op.isGet = true) ∧
    (mesh_load_network_keys max_nr tlv junk_n net_pool).2 =
      (scan_reads (valid_net_slot tlv) (List.range max_nr) net_pool.length).map
        (fun i => TlvOp.get (mesh_network_key_tag_for_internal_index i)) ∧
    (mesh_load_app_keys max_nr tlv junk_a app_pool).2 =
      (scan_reads (nonempty_app_slot tlv) (List.range max_nr) app_pool.length).map
        (fun i => TlvOp.get (mesh_transport_key_tag_for_internal_index i)) := by
  refine ⟨load_network_keys_aux_keys tlv junk_n _ _,
    load_app_keys_aux_keys tlv junk_a _ _, ?_, ?_, ?_, ?_,
    load_network_keys_aux_ops tlv junk_n _ _,
    load_app_keys_aux_ops tlv junk_a _ _⟩
  · rw [show (mesh_load_network_keys max_nr tlv junk_n net_pool).1 =
      List.zipWith (loaded_net_key tlv junk_n) net_pool
        ((List.range max_nr).filter (valid_net_slot tlv)) from
      load_network_keys_aux_keys tlv junk_n _ _]
    rw [List.length_zipWith]
    omega
  · rw [show (mesh_load_app_keys max_nr tlv junk_a app_pool).1 =
      List.zipWith (fun fresh i => loaded_app_key tlv junk_a fresh i) app_pool
        ((List.range max_nr).filter (nonempty_app_slot tlv)) from
      load_app_keys_aux_keys tlv junk_a _ _]
    rw [List.length_zipWith]
    omega
  · intro op hop
    rw [show (mesh_load_network_keys max_nr tlv junk_n net_pool).2 =
      (scan_reads (valid_net_slot tlv) (List.range max_nr) net_pool.length).map
        (fun i => TlvOp.get (mesh_network_key_tag_for_internal_index i)) from
      load_network_keys_aux_ops tlv junk_n _ _] at hop
    obtain ⟨i, _, rfl⟩ := List.mem_map.mp hop
    rfl
  · intro op hop
    rw [show (mesh_load_app_keys max_nr tlv junk_a app_pool).2 =
      (scan_reads (nonempty_app_slot tlv) (List.range max_nr) app_pool.length).map
        (fun i => TlvOp.get (mesh_transport_key_tag_for_internal_index i)) from
      load_app_keys_aux_ops tlv junk_a _ _] at hop
    obtain ⟨i, _, rfl⟩ := List.mem_map.mp hop
    rfl

/-- Witness for C7: two accepted records per kind in the store, but an empty
network-key pool and a one-slot application-key pool. -/
theorem claim_C7_pool_exhaustion_witness :
    ([] : List mesh_network_key_t).length <
      ((List.range 2).filter (valid_net_slot tlv_corrupt)).length ∧
    [fresh_app_slot].length <
      ((List.range 2).filter (nonempty_app_slot tlv_corrupt)).length ∧
    (mesh_load_network_keys 2 tlv_corrupt junk_net []).1 =
      List.zipWith (loaded_net_key tlv_corrupt junk_net) []
        ((List.range 2).filter (valid_net_slot tlv_corrupt)) ∧
    (mesh_load_app_keys 2 tlv_corrupt junk_app [fresh_app_slot]).1 =
      List.zipWith (fun fresh i => loaded_app_key tlv_corrupt junk_app fresh i)
        [fresh_app_slot] ((List.range 2).filter (nonempty_app_slot tlv_corrupt)) :=
  ⟨by decide, by decide,
   (claim_C7_pool_exhaustion 2 tlv_corrupt junk_net junk_app [] [fresh_app_slot]
     (by decide) (by decide)).1,
   (claim_C7_pool_exhaustion 2 tlv_corrupt junk_net junk_app [] [fresh_app_slot]
     (by decide) (by decide)).2.1⟩

/-! ## Divergences found between the spec and the loaders -/

/-- C1, evaluation at the failing input. The network-key loader conforms: the
truncated 3-byte record at slot 0 is skipped and the well-formed record at
slot 1 still loads. The application-key loader does not: its skip condition
is `app_key_len == 0`, so the truncated 1-byte record at slot 0 is decoded
(its missing bytes read from the uninitialized stack buffer, here 170) and a
key is added for slot 0 instead of the slot being treated as empty. -/
theorem claim_C1_app_loader_accepts_truncated_record :
    (mesh_load_network_keys 2 tlv_corrupt junk_net
        [fresh_net_slot, fresh_net_slot]).1.length = 1 ∧
    ((mesh_load_network_keys 2 tlv_corrupt junk_net
        [fresh_net_slot, fresh_net_slot]).1.map mesh_network_key_t.netkey_index)
      = [18] ∧
    (mesh_load_app_keys 2 tlv_corrupt junk_app
        [fresh_app_slot, fresh_app_slot]).1.length = 2 ∧
    ((mesh_load_app_keys 2 tlv_corrupt junk_app
        [fresh_app_slot, fresh_app_slot]).1.map mesh_transport_key_t.internal_index)
      = [0, 1] ∧
    ((mesh_load_app_keys 2 tlv_corrupt junk_app
        [fresh_app_slot, fresh_app_slot]).1.map mesh_transport_key_t.aid)
      = [170, 5] := by
  decide

/-- C2, evaluation at the failing input. Store the scenario network key at
internal index 1 and reload it with one fresh pool slot: `netkey_index` and
`net_key` come back equal to the stored values, but the loader never assigns
`internal_index`, so the loaded key keeps the allocator-provided content of
the fresh struct (0 here) instead of the slot index 1 it was stored under. -/
theorem claim_C2_internal_index_not_restored :
    scenario_net_key.internal_index = 1 ∧
    ((mesh_load_network_keys 2 (mesh_store_network_key tlv_empty scenario_net_key)
        junk_net [fresh_net_slot]).1.map mesh_network_key_t.netkey_index)
      = [scenario_net_key.netkey_index] ∧
    ((mesh_load_network_keys 2 (mesh_store_network_key tlv_empty scenario_net_key)
        junk_net [fresh_net_slot]).1.map mesh_network_key_t.net_key)
      = [scenario_net_key.net_key] ∧
    ((mesh_load_network_keys 2 (mesh_store_network_key tlv_empty scenario_net_key)
        junk_net [fresh_net_slot]).1.map mesh_network_key_t.internal_index)
      = [0] := by
  decide

end Mesh
